import Mathlib

/-!
Verification of the LangGraph chatbot tutorial repository
(anaskhaann/LangGraph_Tutorial) against its natural-language specification.

The development shallowly embeds the Python sources under
src/chatbot with ui/ into Lean:

* the calculator tool of Tools/langgraph_backend.py (numbers idealised as
  rationals, Python float rounding idealised as exact round-half-to-even on
  the rational value, and Python exceptions made explicit as an outcome type);
* the load_conversation functions of the three frontends that load stored
  conversations;
* the sidebar thread-switch handlers of the resume-chat and SQLite frontends;
* the graph wiring of the tool-augmented turn executor;
* retrieve_all_threads over a checkpoint store.
-/

namespace LangGraphTutorial

/-- Outcome of running a piece of Python code: either a normal return of a
value or a propagated exception carrying its message. -/
inductive PyOutcome (α : Type) where
  | ret (v : α)
  | raise (msg : String)
deriving DecidableEq, Repr

/-- The dictionary shapes the calculator tool can return:
the success dict listing the two operands, the operation and the result;
the dict with capitalised key Error returned for an unknown operation; and
the dict with lowercase key error returned by the except clause. -/
inductive CalcDict where
  | okDict (first_num second_num : ℚ) (operation : String) (result : ℚ)
  | invalidOpDict (msg : String)
  | errDict (msg : String)
deriving DecidableEq, Repr

/-- Python round-half-to-even of a rational to an integer, the tie-breaking
rule of the built-in round. -/
def pyRoundHalfEven (x : ℚ) : ℤ :=
  if x - ⌊x⌋ < 1/2 then ⌊x⌋
  else if 1/2 < x - ⌊x⌋ then ⌊x⌋ + 1
  else if ⌊x⌋ % 2 = 0 then ⌊x⌋ else ⌊x⌋ + 1

/-- Python round(x, 2): round to the nearest multiple of 1/100, ties to even
(idealised on exact rationals). -/
def pyRound2 (x : ℚ) : ℚ :=
  (pyRoundHalfEven (x * 100) : ℚ) / 100

/-- The message of the ZeroDivisionError that Python raises when a float is
divided by zero. -/
def divByZeroMsg : String := "float division by zero"

/-- The body of the try block of calculator in
Tools/langgraph_backend.py, lines 35-54.  In the divide branch the guarded
assignment result = 0 on a zero divisor is immediately overwritten: the
division on line 45 runs unconditionally, so a zero second_num raises
ZeroDivisionError out of the try body. -/
def calculatorTry (first_num second_num : ℚ) (operation : String) :
    PyOutcome CalcDict :=
  if operation = "add" then
    PyOutcome.ret (CalcDict.okDict first_num second_num operation
      (first_num + second_num))
  else if operation = "subtract" then
    PyOutcome.ret (CalcDict.okDict first_num second_num operation
      |first_num - second_num|)
  else if operation = "multiply" then
    PyOutcome.ret (CalcDict.okDict first_num second_num operation
      (pyRound2 (first_num * second_num)))
  else if operation = "divide" then
    if second_num = 0 then
      PyOutcome.raise divByZeroMsg
    else
      PyOutcome.ret (CalcDict.okDict first_num second_num operation
        (pyRound2 (first_num / second_num)))
  else
    PyOutcome.ret (CalcDict.invalidOpDict ("Invalid Operation" ++ operation))

/-- calculator of Tools/langgraph_backend.py, lines 28-56: the try body with
the except clause that turns any exception into the lowercase-error dict. -/
def calculator (first_num second_num : ℚ) (operation : String) : CalcDict :=
  match calculatorTry first_num second_num operation with
  | PyOutcome.ret d => d
  | PyOutcome.raise e => CalcDict.errDict e

/-- The whole call as seen by the caller: calculator never lets an exception
escape, so the outcome is always a normal return of the dict. -/
def calculatorOutcome (first_num second_num : ℚ) (operation : String) :
    PyOutcome CalcDict :=
  PyOutcome.ret (calculator first_num second_num operation)

/-- The role of a conversation message, the explicit tagged variant of the
runtime message classes (HumanMessage, AIMessage, ToolMessage). -/
inductive Role where
  | user
  | assistant
  | tool
deriving DecidableEq, Repr

/-- One tool-invocation request carried by an assistant message: an
identifier, the tool name and its structured arguments (kept opaque). -/
structure ToolCall where
  id : String
  name : String
  args : String
deriving DecidableEq, Repr

/-- A conversation message: role, content text, the tool-call requests
(meaningful on assistant messages) and the back-reference answering a
tool call (meaningful on tool messages). -/
structure Message where
  role : Role
  content : String
  tool_calls : List ToolCall := []
  tool_call_id : Option String := none
deriving DecidableEq, Repr

/-- One stored checkpoint record as the frontends observe it: the thread it
belongs to and the message snapshot it carries. -/
structure Checkpoint where
  thread_id : String
  messages : List Message
deriving DecidableEq, Repr

/-- Modelled from the spec: graph.get_state is langgraph library code absent
from the repository. Per spec section 4.2 a read returns the stored messages
of the thread, and for a thread with no stored checkpoints the returned
state has a values mapping without the messages key - attested in the
sources by the comment in Tools/streamlit_frontend.py line 29 (Check if
messages key exists in state values, return empty list if not). The result
none models the absent key. -/
def getStateMessages (store : List Checkpoint) (thread_id : String) :
    Option (List Message) :=
  (store.find? (fun c => c.thread_id == thread_id)).map (fun c => c.messages)

/-- load_conversation of Tools/streamlit_frontend.py, lines 27-30: reads the
state and looks up the messages key with an empty-list default, so it never
raises. -/
def load_conversation_tools (store : List Checkpoint) (thread_id : String) :
    PyOutcome (List Message) :=
  PyOutcome.ret ((getStateMessages store thread_id).getD [])

/-- load_conversation of Sqlite DataBase/streamlit_with_database.py, lines
40-45: same lookup with an empty-list default as the Tools frontend. -/
def load_conversation_sqlite (store : List Checkpoint) (thread_id : String) :
    PyOutcome (List Message) :=
  PyOutcome.ret ((getStateMessages store thread_id).getD [])

/-- load_conversation of resume Chat/streamlit_resume_chat.py, lines 40-43:
plain dictionary indexing of the messages key with no default, which raises
KeyError when the key is absent. -/
def load_conversation_resume (store : List Checkpoint) (thread_id : String) :
    PyOutcome (List Message) :=
  match getStateMessages store thread_id with
  | some ms => PyOutcome.ret ms
  | none => PyOutcome.raise "KeyError: messages"

/-- An entry of the Streamlit session message_history: a role string and the
content text. -/
structure ChatEntry where
  role : String
  content : String
deriving DecidableEq, Repr

/-- A Python for-loop over a list that its own body appends to: iteration is
by index against the current length of the list, so elements appended during
the loop are iterated as well. The fuel argument bounds how many iterations
are modelled; when the list runs out of elements first, the loop exits
regardless of remaining fuel. -/
def liveForAppend {α : Type} (body : α → α) :
    Nat → List α → Nat → List α
  | 0, acc, _ => acc
  | Nat.succ fuel, acc, i =>
    if h : i < acc.length then
      liveForAppend body fuel (acc ++ [body (acc.get ⟨i, h⟩)]) (i + 1)
    else acc

/-- The sidebar thread-switch handler of resume Chat/streamlit_resume_chat.py,
lines 85-105: messages holds the loaded conversation, temp_messages starts
empty, and the conversion loop is written for _ in temp_messages - it
iterates over temp_messages itself, not over messages. The session
message_history is then assigned whatever the loop leaves in temp_messages.
The body argument stands for the per-element conversion of the loop body and
fuel bounds the modelled iterations. -/
def threadSwitchHistory_resume (messages : List Message)
    (body : ChatEntry → ChatEntry) (fuel : Nat) : List ChatEntry :=
  let temp_messages : List ChatEntry := []
  liveForAppend body fuel temp_messages 0

/-- The sidebar thread-switch handler of
Sqlite DataBase/streamlit_with_database.py, lines 84-104, identical in shape
to the resume-chat handler: the conversion loop iterates over the freshly
created empty temp_messages list instead of the loaded messages. -/
def threadSwitchHistory_sqlite (messages : List Message)
    (body : ChatEntry → ChatEntry) (fuel : Nat) : List ChatEntry :=
  let temp_messages : List ChatEntry := []
  liveForAppend body fuel temp_messages 0

/-- The per-message conversion of the Tools frontend
(streamlit_frontend.py, lines 62-67), which checks isinstance HumanMessage
to pick the role string. -/
def convertMessage (m : Message) : ChatEntry :=
  { role := if m.role = Role.user then "user" else "assistant",
    content := m.content }

/-- The thread-switch conversion of the Tools frontend
(streamlit_frontend.py, lines 58-69), which iterates over the loaded
messages, for contrast with the two broken handlers. -/
def threadSwitchHistory_tools (messages : List Message) : List ChatEntry :=
  messages.map convertMessage

/-- The nodes of the compiled tool graph of Tools/langgraph_backend.py:
START, the chat node, the tools node and END. -/
inductive GraphNode where
  | START
  | chat_node
  | tools
  | END
deriving DecidableEq, Repr

/-- tools_condition of langgraph.prebuilt as the source relies on it,
documented by the comments at Tools/langgraph_backend.py lines 106 and 113
(If LLM asked for tool, then go to tool node else finish): route to the
tools node iff the model response carries at least one tool-call request,
otherwise to END. -/
def tools_condition (response : Message) : GraphNode :=
  if response.tool_calls.isEmpty then GraphNode.END else GraphNode.tools

/-- The edge structure built on Tools/langgraph_backend.py lines 110-116:
START to chat_node unconditionally, chat_node routed by tools_condition,
tools back to chat_node unconditionally; END has no successor. The response
argument is the model message produced by the most recent chat_node run,
which the conditional edge inspects. -/
def nextNode (current : GraphNode) (response : Message) : Option GraphNode :=
  match current with
  | GraphNode.START => some GraphNode.chat_node
  | GraphNode.chat_node => some (tools_condition response)
  | GraphNode.tools => some GraphNode.chat_node
  | GraphNode.END => none

/-- retrieve_all_threads of Tools/langgraph_backend.py lines 121-126 and of
Sqlite DataBase/langgraph_backend.py lines 63-69: scan every checkpoint in
the store and collect the distinct thread identifiers. The Python set is
modelled by keeping first occurrences; every property proved about the
result is independent of that choice of order. -/
def retrieve_all_threads (store : List Checkpoint) : List String :=
  (store.map (fun c => c.thread_id)).dedup

/-- Identifiers of the tool calls requested by the assistant messages of a
history. -/
def requestedToolCallIds (history : List Message) : List String :=
  (history.filterMap (fun m =>
    if m.role = Role.assistant then some (m.tool_calls.map (fun t => t.id))
    else none)).flatten

/-- Identifiers already answered by the tool messages of a history. -/
def answeredToolCallIds (history : List Message) : List String :=
  history.filterMap (fun m =>
    if m.role = Role.tool then m.tool_call_id else none)

/-- Tool-call requests of the history not yet answered by any tool
message. -/
def unansweredToolCallIds (history : List Message) : List String :=
  (requestedToolCallIds history).filter
    (fun i => !(answeredToolCallIds history).contains i)

/-- Modelled from the spec: the checkpoint-append path (the put operation of
SqliteSaver and InMemorySaver) is langgraph library code absent from the
repository; only its construction is in the sources
(Tools/langgraph_backend.py lines 96-118). Spec section 7 requires a
malformed tool-call/tool-result pairing - a tool message whose back-reference
is missing or matches no unanswered tool-call request - to be rejected at
append time as a data-integrity violation rather than silently stored,
preserving the invariant of spec section 3. -/
def appendMessageChecked (history : List Message) (m : Message) :
    Except String (List Message) :=
  if m.role = Role.tool then
    match m.tool_call_id with
    | none =>
      Except.error "data-integrity violation: tool message without back-reference"
    | some i =>
      if i ∈ unansweredToolCallIds history then Except.ok (history ++ [m])
      else
        Except.error "data-integrity violation: back-reference matches no unanswered tool call"
  else Except.ok (history ++ [m])

/-! Helper lemmas about the calculator branches. -/

/-- On a zero divisor the try body of calculator raises: the guarded
assignment of 0 is dead, the unconditional division raises. -/
theorem calculatorTry_divide_zero (a : ℚ) :
    calculatorTry a 0 "divide" = PyOutcome.raise divByZeroMsg := rfl

/-- On a non-zero divisor the try body of calculator returns the rounded
quotient. -/
theorem calculatorTry_divide (a b : ℚ) (hb : b ≠ 0) :
    calculatorTry a b "divide" =
      PyOutcome.ret (CalcDict.okDict a b "divide" (pyRound2 (a / b))) := by
  show (if b = 0 then PyOutcome.raise divByZeroMsg
        else PyOutcome.ret (CalcDict.okDict a b "divide" (pyRound2 (a / b))))
      = _
  rw [if_neg hb]

/-- The calculator on divide with a non-zero divisor. -/
theorem calculator_divide (a b : ℚ) (hb : b ≠ 0) :
    calculator a b "divide" =
      CalcDict.okDict a b "divide" (pyRound2 (a / b)) := by
  unfold calculator
  rw [calculatorTry_divide a b hb]

/-- The try body on an operation outside the four supported ones returns the
capitalised-Error dict. -/
theorem calculatorTry_unknown (a b : ℚ) (op : String)
    (h1 : op ≠ "add") (h2 : op ≠ "subtract") (h3 : op ≠ "multiply")
    (h4 : op ≠ "divide") :
    calculatorTry a b op =
      PyOutcome.ret (CalcDict.invalidOpDict ("Invalid Operation" ++ op)) := by
  unfold calculatorTry
  rw [if_neg h1, if_neg h2, if_neg h3, if_neg h4]

/-- Round-half-to-even at a rational that is exactly an integer is that
integer. -/
theorem pyRoundHalfEven_intCast (n : ℤ) : pyRoundHalfEven (n : ℚ) = n := by
  unfold pyRoundHalfEven
  rw [Int.floor_intCast]
  norm_num

/-- Evaluation of the multiply branch at 2 and 3: the rounded product is
exactly 6. -/
theorem calculator_multiply_2_3 :
    calculator 2 3 "multiply" = CalcDict.okDict 2 3 "multiply" 6 := by
  have h : pyRound2 ((2 : ℚ) * 3) = 6 := by
    unfold pyRound2
    rw [show ((2 : ℚ) * 3) * 100 = ((600 : ℤ) : ℚ) by norm_num,
      pyRoundHalfEven_intCast]
    norm_num
  show CalcDict.okDict 2 3 "multiply" (pyRound2 ((2 : ℚ) * 3)) =
    CalcDict.okDict 2 3 "multiply" 6
  rw [h]

/-- Evaluation of the subtract branch at 5 and 8: the absolute difference is
3. -/
theorem calculator_subtract_5_8 :
    calculator 5 8 "subtract" = CalcDict.okDict 5 8 "subtract" 3 := by
  have h : |(5 : ℚ) - 8| = 3 := by
    rw [show (5 : ℚ) - 8 = -3 by norm_num, abs_neg,
      abs_of_nonneg (by norm_num : (0 : ℚ) ≤ 3)]
  show CalcDict.okDict 5 8 "subtract" |(5 : ℚ) - 8| =
    CalcDict.okDict 5 8 "subtract" 3
  rw [h]

/-! The claim theorems. -/

/-- C1: the claim says calculator(first_num, 0, divide) returns the numeric
result 0 without raising an exception. On the code the guarded assignment of
0 falls through to the unconditional division, which raises
ZeroDivisionError; the except clause catches it, so the caller instead
receives the lowercase-error dict and never the success dict with result 0.
This theorem evaluates the code at the failing inputs. -/
theorem C1_divide_by_zero_yields_error_dict (first_num : ℚ) :
    calculator first_num 0 "divide" = CalcDict.errDict divByZeroMsg ∧
    calculator first_num 0 "divide" ≠
      CalcDict.okDict first_num 0 "divide" 0 := by
  refine ⟨rfl, ?_⟩
  intro h
  exact CalcDict.noConfusion
    ((rfl : calculator first_num 0 "divide" = CalcDict.errDict divByZeroMsg).symm.trans h)

/-- C4: calculator on subtract returns the absolute difference of the two
operands, which is never negative; in particular calculator(5, 8, subtract)
returns 3, not -3. -/
theorem C4_subtract_absolute_difference (a b : ℚ) :
    calculator a b "subtract" = CalcDict.okDict a b "subtract" |a - b| ∧
    0 ≤ |a - b| ∧
    calculator 5 8 "subtract" = CalcDict.okDict 5 8 "subtract" 3 :=
  ⟨rfl, abs_nonneg _, calculator_subtract_5_8⟩

/-- C5: for every operation string other than the four supported ones,
calculator returns the structured Error dict and the call returns normally,
raising no exception; in particular calculator(1, 3, bogus) returns such an
error value. -/
theorem C5_unknown_operation_structured_error (a b : ℚ) (op : String)
    (h1 : op ≠ "add") (h2 : op ≠ "subtract") (h3 : op ≠ "multiply")
    (h4 : op ≠ "divide") :
    calculator a b op = CalcDict.invalidOpDict ("Invalid Operation" ++ op) ∧
    calculatorOutcome a b op =
      PyOutcome.ret (CalcDict.invalidOpDict ("Invalid Operation" ++ op)) := by
  have h : calculator a b op =
      CalcDict.invalidOpDict ("Invalid Operation" ++ op) := by
    unfold calculator
    rw [calculatorTry_unknown a b op h1 h2 h3 h4]
  exact ⟨h, by unfold calculatorOutcome; rw [h]⟩

/-- Witness for C5 at the concrete input calculator(1, 3, bogus). -/
theorem C5_unknown_operation_structured_error_witness :
    (("bogus" : String) ≠ "add" ∧ ("bogus" : String) ≠ "subtract" ∧
      ("bogus" : String) ≠ "multiply" ∧ ("bogus" : String) ≠ "divide") ∧
    calculator 1 3 "bogus" =
      CalcDict.invalidOpDict ("Invalid Operation" ++ "bogus") :=
  ⟨⟨by decide, by decide, by decide, by decide⟩,
    (C5_unknown_operation_structured_error 1 3 "bogus" (by decide) (by decide)
      (by decide) (by decide)).1⟩

/-- C6: the numeric result of multiply is the product rounded to 2 decimal
places, and of divide with a non-zero divisor the quotient rounded to 2
decimal places; in particular calculator(2, 3, multiply) yields result 6. -/
theorem C6_multiply_divide_rounded (a b : ℚ) :
    calculator a b "multiply" =
      CalcDict.okDict a b "multiply" (pyRound2 (a * b)) ∧
    (b ≠ 0 → calculator a b "divide" =
      CalcDict.okDict a b "divide" (pyRound2 (a / b))) ∧
    calculator 2 3 "multiply" = CalcDict.okDict 2 3 "multiply" 6 :=
  ⟨rfl, fun hb => calculator_divide a b hb, calculator_multiply_2_3⟩

/-- Witness for C6 at the concrete inputs calculator(1, 2, divide) and
calculator(2, 3, multiply). -/
theorem C6_multiply_divide_rounded_witness :
    ((2 : ℚ) ≠ 0) ∧
    calculator 1 2 "divide" =
      CalcDict.okDict 1 2 "divide" (pyRound2 (1 / 2)) ∧
    calculator 2 3 "multiply" = CalcDict.okDict 2 3 "multiply" 6 :=
  ⟨by norm_num, (C6_multiply_divide_rounded 1 2).2.1 (by norm_num),
    (C6_multiply_divide_rounded 1 2).2.2⟩

/-- C10: the calculator is total over its public interface: for every pair
of rational operands and every operation string the call returns a dict
normally, and whenever the try body raises, the except clause returns the
lowercase-error dict carrying the exception message. -/
theorem C10_calculator_total (a b : ℚ) (op : String) :
    (∃ d, calculatorOutcome a b op = PyOutcome.ret d) ∧
    (∀ e, calculatorTry a b op = PyOutcome.raise e →
      calculator a b op = CalcDict.errDict e) := by
  refine ⟨⟨calculator a b op, rfl⟩, ?_⟩
  intro e he
  unfold calculator
  rw [he]

/-- Witness for C10 at the concrete input calculator(1, 0, divide), where
the try body does raise. -/
theorem C10_calculator_total_witness :
    calculatorTry 1 0 "divide" = PyOutcome.raise divByZeroMsg ∧
    calculator 1 0 "divide" = CalcDict.errDict divByZeroMsg :=
  ⟨rfl, (C10_calculator_total 1 0 "divide").2 divByZeroMsg rfl⟩

/-- C2 counterexample: on the empty store (so the thread has no stored
checkpoints) the resume-chat load_conversation raises KeyError instead of
returning the empty message history, refuting the claim that every frontend
variant returns an empty history without error. -/
theorem C2_resume_variant_raises_counterexample :
    load_conversation_resume [] "thread-1" =
      PyOutcome.raise "KeyError: messages" ∧
    load_conversation_resume [] "thread-1" ≠
      PyOutcome.ret ([] : List Message) :=
  ⟨rfl, by decide⟩

/-- C2 amended: for a thread identifier with no stored checkpoints, the
Tools and SQLite-database frontends return the empty message history without
error, while the resume-chat frontend raises a KeyError because it indexes
the messages key with no default. -/
theorem C2_unknown_thread_amended (store : List Checkpoint) (tid : String)
    (hfresh : tid ∉ store.map (fun c => c.thread_id)) :
    load_conversation_tools store tid = PyOutcome.ret [] ∧
    load_conversation_sqlite store tid = PyOutcome.ret [] ∧
    load_conversation_resume store tid =
      PyOutcome.raise "KeyError: messages" := by
  have hfind : store.find? (fun c => c.thread_id == tid) = none := by
    rw [List.find?_eq_none]
    intro c hc hbeq
    exact hfresh (List.mem_map.mpr ⟨c, hc, by simpa using hbeq⟩)
  have hget : getStateMessages store tid = none := by
    unfold getStateMessages
    rw [hfind]
    rfl
  refine ⟨?_, ?_, ?_⟩
  · unfold load_conversation_tools
    rw [hget]
    rfl
  · unfold load_conversation_sqlite
    rw [hget]
    rfl
  · unfold load_conversation_resume
    rw [hget]

/-- Witness for the amended C2 at a one-checkpoint store and a fresh thread
identifier. -/
theorem C2_unknown_thread_amended_witness :
    ("fresh" ∉ List.map (fun c => c.thread_id) [Checkpoint.mk "other" []]) ∧
    (load_conversation_tools [Checkpoint.mk "other" []] "fresh" =
        PyOutcome.ret [] ∧
      load_conversation_sqlite [Checkpoint.mk "other" []] "fresh" =
        PyOutcome.ret [] ∧
      load_conversation_resume [Checkpoint.mk "other" []] "fresh" =
        PyOutcome.raise "KeyError: messages") :=
  ⟨by decide, C2_unknown_thread_amended [Checkpoint.mk "other" []] "fresh"
    (by decide)⟩

/-- C3: appending a tool-result message whose back-reference matches no
unanswered tool-call request of the preceding history is rejected by the
checkpoint-append path as a data-integrity violation, not silently
stored. -/
theorem C3_malformed_tool_result_rejected (history : List Message)
    (m : Message) (i : String)
    (hrole : m.role = Role.tool)
    (hid : m.tool_call_id = some i)
    (hbad : i ∉ unansweredToolCallIds history) :
    appendMessageChecked history m =
      Except.error
        "data-integrity violation: back-reference matches no unanswered tool call" := by
  unfold appendMessageChecked
  rw [if_pos hrole, hid]
  exact if_neg hbad

/-- Witness for C3: a history with one assistant message requesting tool
call c1, and a tool message answering the non-existent call nope. -/
theorem C3_malformed_tool_result_rejected_witness :
    ((Message.mk Role.tool "r" [] (some "nope")).role = Role.tool ∧
      (Message.mk Role.tool "r" [] (some "nope")).tool_call_id = some "nope" ∧
      "nope" ∉ unansweredToolCallIds
        [Message.mk Role.assistant "a" [ToolCall.mk "c1" "calculator" "x"] none]) ∧
    appendMessageChecked
        [Message.mk Role.assistant "a" [ToolCall.mk "c1" "calculator" "x"] none]
        (Message.mk Role.tool "r" [] (some "nope")) =
      Except.error
        "data-integrity violation: back-reference matches no unanswered tool call" :=
  ⟨⟨rfl, rfl, by decide⟩,
    C3_malformed_tool_result_rejected
      [Message.mk Role.assistant "a" [ToolCall.mk "c1" "calculator" "x"] none]
      (Message.mk Role.tool "r" [] (some "nope")) "nope" rfl rfl (by decide)⟩

/-- C7: from the model-inference node the graph moves to the tool-execution
node iff the model response carries at least one tool-call request, moves to
END iff it carries none, and the tool-execution node always moves back to
the model-inference node. -/
theorem C7_phase_transitions (response : Message) :
    (nextNode GraphNode.chat_node response = some GraphNode.tools ↔
      response.tool_calls ≠ []) ∧
    (nextNode GraphNode.chat_node response = some GraphNode.END ↔
      response.tool_calls = []) ∧
    nextNode GraphNode.tools response = some GraphNode.chat_node := by
  unfold nextNode tools_condition
  cases hc : response.tool_calls with
  | nil => simp
  | cons a t => simp

/-- C8: retrieve_all_threads returns the distinct thread identifiers of the
checkpoint store, each exactly once even when a thread has several
checkpoints, and with no intervening writes (the store value unchanged) two
calls return the same result. -/
theorem C8_retrieve_all_threads_set (store : List Checkpoint) :
    (retrieve_all_threads store).Nodup ∧
    (∀ tid, tid ∈ retrieve_all_threads store ↔
      ∃ c ∈ store, c.thread_id = tid) ∧
    retrieve_all_threads
        [Checkpoint.mk "t1" [], Checkpoint.mk "t1" [], Checkpoint.mk "t2" []]
      = ["t1", "t2"] ∧
    (∀ store2, store2 = store →
      retrieve_all_threads store2 = retrieve_all_threads store) := by
  refine ⟨List.nodup_dedup _, ?_, by decide, ?_⟩
  · intro tid
    simp [retrieve_all_threads, List.mem_dedup, List.mem_map]
  · intro store2 h
    rw [h]

/-- Witness for C8 at the empty store with two reads and no intervening
write. -/
theorem C8_retrieve_all_threads_set_witness :
    (([] : List Checkpoint) = []) ∧
    retrieve_all_threads [] = retrieve_all_threads [] :=
  ⟨rfl, (C8_retrieve_all_threads_set []).2.2.2 [] rfl⟩

/-- The live-list loop starting from the empty list performs no iteration,
whatever the fuel and the body. -/
theorem liveForAppend_nil {α : Type} (body : α → α) (fuel : Nat) :
    liveForAppend body fuel ([] : List α) 0 = [] := by
  cases fuel with
  | zero => rfl
  | succ n =>
    unfold liveForAppend
    simp

/-- C9: in the resume-chat and SQLite frontends the sidebar thread-switch
handler always produces the empty session history, for every loaded message
list, every loop body and every iteration bound, because the conversion loop
iterates over the freshly created empty temp_messages list instead of the
loaded messages. -/
theorem C9_thread_switch_always_empty (messages : List Message)
    (body : ChatEntry → ChatEntry) (fuel : Nat) :
    threadSwitchHistory_resume messages body fuel = [] ∧
    threadSwitchHistory_sqlite messages body fuel = [] :=
  ⟨liveForAppend_nil body fuel, liveForAppend_nil body fuel⟩

end LangGraphTutorial
